import Mathlib

/-!
Formal model of the Target checkout content script
(sites/target/content-script.js) and verification of its specification.

The JavaScript source is shallowly embedded as pure Lean functions:

* DOM lookups are abstracted as boolean/optional fields of an environment
  record (`Dom`, `PriceEnv`, ...) that is constant during one synchronous
  turn (no suspension point), matching the single-threaded cooperative
  scheduling of the page.
* Mutable module state (guard flags, `checkoutInProgress`, `currentStep`)
  is a record `St` threaded through every function.
* Side effects (clicks, field fills, status updates, navigation) are
  collected in a `List Eff` trace.
* JavaScript exceptions raised by a sub-computation are modelled by
  environment flags naming the computation that throws; the embedding of
  each try/catch then follows the catch handler of the source.
* JavaScript numbers are modelled as rationals; JS truthiness of strings
  (empty string is falsy) and of numbers (0 is falsy) is modelled
  explicitly where the source relies on it.
-/

namespace TargetScript

/-- JS truthiness of an optional string value: `null`/`undefined` and the
empty string are falsy, every other string is truthy. -/
def truthy : Option String → Bool
  | none => false
  | some s => !(s == "")

/-- First truthy value of a list of optional strings (the fixed-priority
resolution order the specification describes). -/
def firstTruthy : List (Option String) → Option String
  | [] => none
  | o :: rest => if truthy o then o else firstTruthy rest

/-- Payment data shape: nested object that may carry a cvv and a card
number (used for both `profile.paymentMethod` and `profile.payment`). -/
structure Pay where
  cvv : Option String
  cardNumber : Option String
  deriving DecidableEq

/-- Checkout profile, restricted to the payment fields the claims are
about.  The three non-exclusive shapes of the payment data are the direct
fields, `paymentMethod` and `payment`. -/
structure Profile where
  cvv : Option String
  cardNumber : Option String
  paymentMethod : Option Pay
  payment : Option Pay
  deriving DecidableEq

/-! ## Price guard (`extractTCIN`, `extractPrice`, `checkProductPrice`) -/

/-- Environment of one price-guard evaluation.  The `...Throws` flags
model a JS exception raised inside the named computation; the optional
fields are the abstracted results of the corresponding DOM reads/parses. -/
structure PriceEnv where
  /-- the awaited storage read at the top of `checkProductPrice` throws
  (its exception reaches the guard's own try/catch) -/
  storageThrows : Bool
  price_check_enabled : Bool
  price_check_closeTabOnFail : Bool
  /-- `price_check_items`: map from TCIN to configured maximum price -/
  price_check_items : List (String × ℚ)
  /-- an exception is raised inside the body of `extractTCIN` -/
  tcinThrows : Bool
  /-- capture group of the URL pattern match in `extractTCIN` -/
  urlTcin : Option String
  /-- value of the first `data-tcin` attribute, when such an element exists -/
  dataTcin : Option String
  /-- an exception is raised inside the body of `extractPrice` -/
  priceThrows : Bool
  /-- parsed price from the primary price element -/
  priceMain : Option ℚ
  /-- parsed price from the fallback price elements -/
  priceFallback : Option ℚ
  /-- parsed price from the structured-data script -/
  priceStructured : Option ℚ
  deriving DecidableEq

/-- `extractTCIN`: its whole body is wrapped in try/catch; an exception is
caught locally and the function returns `null`.  Otherwise the URL match
wins over the `data-tcin` attribute. -/
def extractTCIN (e : PriceEnv) : Option String :=
  if e.tcinThrows then none
  else
    match e.urlTcin with
    | some t => some t
    | none => e.dataTcin

/-- `extractPrice`: its whole body is wrapped in try/catch; an exception is
caught locally and the function returns `null`.  Otherwise the first of the
layered parse attempts (primary element, fallback elements, structured
data) that yields a number wins. -/
def extractPrice (e : PriceEnv) : Option ℚ :=
  if e.priceThrows then none
  else
    match e.priceMain with
    | some q => some q
    | none =>
      match e.priceFallback with
      | some q => some q
      | none => e.priceStructured

/-- Lookup of a TCIN in the configured price-limit map
(`tcin in price_check_items` followed by `price_check_items[tcin]`). -/
def lookupItem (t : String) (items : List (String × ℚ)) : Option ℚ :=
  (items.find? (fun it => it.1 == t)).map (fun it => it.2)

/-- `checkProductPrice`: returns `true` (Pass) or `false` (Block).  An
exception inside its own try/catch (the storage read) returns `false`; a
disabled config, a falsy TCIN (`!tcin`: null or empty string), a falsy
price (`!price`: null or 0) or an unconfigured TCIN return `true`; a price
above the configured maximum returns `false`.  The tab-close/alert side
effects of the blocking branch are not modelled (no claim concerns them). -/
def checkProductPrice (e : PriceEnv) : Bool :=
  if e.storageThrows then false
  else if !e.price_check_enabled then true
  else
    match extractTCIN e with
    | none => true
    | some t =>
      if t == "" then true
      else
        match extractPrice e with
        | none => true
        | some pr =>
          if pr == 0 then true
          else
            match lookupItem t e.price_check_items with
            | none => true
            | some m => if pr > m then false else true

/-- Modelled from the spec (section 4.2 / section 8): the decision table
the claims state for the price guard, as a function of the extracted id,
the extracted price and the configuration.  This is the spec side of the
refinement; `checkProductPrice` is the code side. -/
def priceGuardSpecTable (id : Option String) (price : Option ℚ)
    (enabled : Bool) (items : List (String × ℚ)) : Bool :=
  if !enabled then true
  else
    match id with
    | none => true
    | some t =>
      match price with
      | none => true
      | some pr =>
        match lookupItem t items with
        | none => true
        | some m => if pr > m then false else true

/-- Coalesce a falsy (empty) extracted TCIN to "absent". -/
def blankToNone (o : Option String) : Option String :=
  match o with
  | none => none
  | some s => if s == "" then none else some s

/-- Coalesce a falsy (zero) extracted price to "absent". -/
def zeroToNone (o : Option ℚ) : Option ℚ :=
  match o with
  | none => none
  | some q => if q == 0 then none else some q

/-! ## Profile payment-data resolution -/

/-- CVV resolution of `handleCVVConfirmation` (checkout page): optional
chaining `profile?.cvv`, then `profile?.paymentMethod?.cvv`, then
`profile?.payment?.cvv`; the chosen value is the first truthy one, and the
subsequent `if (!cvv)` guard means a falsy result is reported as missing. -/
def resolveCvvCheckout (p : Option Profile) : Option String :=
  if truthy (p.bind Profile.cvv) then p.bind Profile.cvv
  else if truthy ((p.bind Profile.paymentMethod).bind Pay.cvv) then
    (p.bind Profile.paymentMethod).bind Pay.cvv
  else if truthy ((p.bind Profile.payment).bind Pay.cvv) then
    (p.bind Profile.payment).bind Pay.cvv
  else none

/-- CVV resolution of `useBuyNowCheckout` (Buy-Now iframe flow): the same
three-way optional-chaining cascade, duplicated in the source. -/
def resolveCvvBuyNow (p : Option Profile) : Option String :=
  if truthy (p.bind Profile.cvv) then p.bind Profile.cvv
  else if truthy ((p.bind Profile.paymentMethod).bind Pay.cvv) then
    (p.bind Profile.paymentMethod).bind Pay.cvv
  else if truthy ((p.bind Profile.payment).bind Pay.cvv) then
    (p.bind Profile.payment).bind Pay.cvv
  else none

/-- Card-number resolution of `handleCreditCardConfirmation`:
`if (profile)`, then `profile.cardNumber`, else
`profile.paymentMethod && profile.paymentMethod.cardNumber`.  There is no
`profile.payment` fallback in the source. -/
def resolveCardNumber (p : Option Profile) : Option String :=
  match p with
  | none => none
  | some prof =>
    if truthy prof.cardNumber then prof.cardNumber
    else if prof.paymentMethod.isSome
        && truthy (prof.paymentMethod.bind Pay.cardNumber) then
      prof.paymentMethod.bind Pay.cardNumber
    else none

/-- Modelled from the spec (section 3): the three-shape resolution order
the claims state for the card number — direct, then `paymentMethod.*`,
then `payment.*`, first present value wins. -/
def cardNumberResolutionSpec (p : Option Profile) : Option String :=
  firstTruthy [p.bind Profile.cardNumber,
    (p.bind Profile.paymentMethod).bind Pay.cardNumber,
    (p.bind Profile.payment).bind Pay.cardNumber]

/-! ## Checkout-page state, DOM abstraction and effect traces -/

/-- Abstraction of the checkout-page DOM during one synchronous turn.
Each logical element is collapsed to presence/visibility/usability flags;
the different lookup strategies the source uses for the same logical
element (id selector, selector table, attribute fallback) are identified. -/
structure Dom where
  cvvPresent : Bool
  cvvVisible : Bool
  /-- CVV confirm button found, visible and enabled -/
  cvvConfirmUsable : Bool
  cardPresent : Bool
  cardVisible : Bool
  /-- verify-card button found, visible and enabled -/
  verifyBtnUsable : Bool
  placeOrderPresent : Bool
  placeOrderVisible : Bool
  placeOrderDisabled : Bool
  /-- save-and-continue button found, visible and enabled -/
  saveAndContinueUsable : Bool
  /-- terms checkbox found, visible and currently unchecked -/
  termsUnchecked : Bool
  /-- the high-demand error message is on the page -/
  highDemand : Bool
  loadingSpinnerVisible : Bool
  paymentFormPresent : Bool
  shippingFormPresent : Bool
  shippingContinueVisible : Bool
  addPaymentVisible : Bool
  cardFramePresent : Bool
  /-- the Buy-Now side panel (its place-order button) is in the document -/
  buyNowPanelPresent : Bool
  deriving DecidableEq

/-- Mutable module state of the content script (the variables declared at
the top of `initializeTargetCheckout`). -/
structure St where
  checkoutInProgress : Bool
  currentStep : String
  placeOrderButtonClicked : Bool
  confirmButtonClicked : Bool
  verifyCardButtonClicked : Bool
  isFillingCvvInput : Bool
  isFillingCardInput : Bool
  inBuyNowErrorRecovery : Bool
  /-- `window.highDemandRetryInterval` is non-null -/
  highDemandIntervalInstalled : Bool
  deriving DecidableEq

/-- Global settings (`globalSettings`). -/
structure Glob where
  autoSubmit : Bool
  randomizeDelay : Bool
  useBuyNowWhenAvailable : Bool
  deriving DecidableEq

/-- Side effects performed against the page or the status sink. -/
inductive Eff
  | status (msg : String)
  | warn (msg : String)
  | fillCvv (v : String)
  | clickCvvConfirm
  | fillCard (v : Option String)
  | clickVerifyCard
  | clickPlaceOrder
  | clickSaveAndContinue
  | checkTerms
  | installHighDemandInterval
  | clickShippingContinue
  | fillShippingForm
  | clickAddPayment
  | fillPaymentForm
  | stepSelectDelivery
  | stepAddToCart
  | stepHandlePopups
  | stepGoToCheckout
  | navigateToCheckout
  | checkoutError
  deriving DecidableEq

/-- `handleCVVConfirmation`: guarded by `isFillingCvvInput` and
`confirmButtonClicked`; sets `isFillingCvvInput` synchronously before its
first await and resets it in the finally block on every exit path. -/
def handleCVVConfirmation (dom : Dom) (p : Option Profile) (st : St) :
    St × List Eff :=
  if st.isFillingCvvInput || st.confirmButtonClicked then (st, [])
  else
    let st1 : St :=
      { st with currentStep := "handle-cvv", isFillingCvvInput := true }
    let e0 : List Eff := [Eff.status "Confirming CVV..."]
    match resolveCvvCheckout p with
    | none =>
      ({ st1 with isFillingCvvInput := false },
        e0 ++ [Eff.warn "No CVV found in profile"])
    | some v =>
      if dom.cvvPresent && dom.cvvVisible then
        let e1 := e0 ++ [Eff.fillCvv v]
        if dom.cvvConfirmUsable then
          if st1.confirmButtonClicked then
            ({ st1 with isFillingCvvInput := false }, e1)
          else
            ({ st1 with confirmButtonClicked := true, isFillingCvvInput := false },
              e1 ++ [Eff.clickCvvConfirm])
        else
          ({ st1 with isFillingCvvInput := false },
            e1 ++ [Eff.warn "CVV confirm button not usable"])
      else ({ st1 with isFillingCvvInput := false }, e0)

/-- `handleCreditCardConfirmation`: guarded by `isFillingCardInput` and
`verifyCardButtonClicked`.  Note that the fill uses the direct
`profile.cardNumber` field, not the resolved `cardNumber` variable. -/
def handleCreditCardConfirmation (dom : Dom) (p : Option Profile)
    (st : St) : St × List Eff :=
  if st.isFillingCardInput || st.verifyCardButtonClicked then (st, [])
  else
    let st1 : St :=
      { st with currentStep := "handle-card-verification", isFillingCardInput := true }
    let e0 : List Eff := [Eff.status "Verifying card..."]
    match resolveCardNumber p with
    | none =>
      ({ st1 with isFillingCardInput := false },
        e0 ++ [Eff.status "Error: Missing card number in profile"])
    | some _ =>
      if dom.cardPresent && dom.cardVisible then
        let e1 := e0 ++ [Eff.fillCard (p.bind Profile.cardNumber)]
        if dom.verifyBtnUsable then
          if st1.verifyCardButtonClicked then
            ({ st1 with isFillingCardInput := false }, e1)
          else
            ({ st1 with verifyCardButtonClicked := true, isFillingCardInput := false },
              e1 ++ [Eff.clickVerifyCard])
        else
          ({ st1 with isFillingCardInput := false },
            e1 ++ [Eff.warn "Verify card button not usable"])
      else ({ st1 with isFillingCardInput := false }, e0)

/-- The high-demand preamble of `placeOrder`: when the high-demand error
message is on the page, installs the retry interval once (the interval
callback itself only runs on later turns).  Returns the updated state and
the status effects so far. -/
def placeOrderHighDemand (dom : Dom) (st0 : St) : St × List Eff :=
  let e0 : List Eff := [Eff.status "Placing order..."]
  if dom.highDemand then
    if !st0.highDemandIntervalInstalled then
      ({ st0 with highDemandIntervalInstalled := true },
        e0 ++ [Eff.status "High demand message detected - auto-retrying...",
          Eff.installHighDemandInterval])
    else
      (st0, e0 ++ [Eff.status "High demand message detected - auto-retrying..."])
  else (st0, e0)

/-- The part of `placeOrder` after the auto-submit gate and the
high-demand preamble: the pre-click CVV/card checks, the terms checkbox,
the button availability checks, the guard check, the click and the
post-click CVV/card checks (the latter re-invocation abstracted as
`recur`; in the source it happens only after a 2000 ms suspension).
Within one synchronous turn the DOM snapshot is constant, so the
post-click branches require `dom.cvvPresent`/`dom.cardPresent`, which the
pre-click checks already excluded. -/
def placeOrderAfterChecks (recur : St → St × List Eff) (dom : Dom)
    (p : Option Profile) (st1 : St) (e1 : List Eff) : St × List Eff :=
  if dom.cvvPresent then
    let r := handleCVVConfirmation dom p
      { st1 with placeOrderButtonClicked := false }
    (r.1, e1 ++ r.2)
  else if dom.cardPresent then
    let r := handleCreditCardConfirmation dom p
      { st1 with placeOrderButtonClicked := false }
    (r.1, e1 ++ r.2)
  else
    let e2 := e1 ++ (if dom.termsUnchecked then [Eff.checkTerms] else [])
    if !dom.placeOrderPresent then
      (st1, e2 ++ [Eff.warn "Place order button not found"])
    else if !dom.placeOrderVisible then
      (st1, e2 ++ [Eff.warn "Place order button not visible"])
    else if dom.placeOrderDisabled then
      if dom.saveAndContinueUsable then
        ({ st1 with placeOrderButtonClicked := false },
          e2 ++ [Eff.status "Continuing checkout steps...",
            Eff.clickSaveAndContinue])
      else (st1, e2 ++ [Eff.warn "Place order button is disabled"])
    else if st1.placeOrderButtonClicked then (st1, e2)
    else
      let st2 := { st1 with placeOrderButtonClicked := true }
      let e3 := e2 ++ [Eff.status "Submitting order...", Eff.clickPlaceOrder]
      if dom.cvvPresent then
        let r := handleCVVConfirmation dom p
          { st2 with confirmButtonClicked := false, placeOrderButtonClicked := false }
        let r2 := recur r.1
        (r2.1, e3 ++ r.2 ++ r2.2)
      else if dom.cardPresent then
        let r := handleCreditCardConfirmation dom p
          { st2 with verifyCardButtonClicked := false, placeOrderButtonClicked := false }
        let r2 := recur r.1
        (r2.1, e3 ++ r.2 ++ r2.2)
      else (st2, e3 ++ [Eff.status "Order successfully placed!"])

/-- Body of `placeOrder`: the auto-submit gate, the high-demand preamble,
then the checks-and-click sequence. -/
def placeOrderBody (recur : St → St × List Eff) (g : Glob) (dom : Dom)
    (p : Option Profile) (st : St) : St × List Eff :=
  let st0 : St := { st with currentStep := "place-order" }
  if !g.autoSubmit then
    (st0, [Eff.status "Order ready - Submit disabled"])
  else
    let hd := placeOrderHighDemand dom st0
    placeOrderAfterChecks recur dom p hd.1 hd.2

/-- `placeOrder`: the body above, with the post-click re-invocation
bounded by `fuel` (at zero fuel the re-invocation contributes nothing). -/
def placeOrder : Nat → Glob → Dom → Option Profile → St → St × List Eff
  | 0, g, dom, p, st =>
    placeOrderBody (fun st2 => (st2, [])) g dom p st
  | Nat.succ n, g, dom, p, st =>
    placeOrderBody (placeOrder n g dom p) g dom p st

/-- The two watcher channels installed by `setupCheckoutPageObservers`. -/
inductive Channel
  | observer
  | interval
  deriving DecidableEq

/-- Body of the MutationObserver callback: gated on `isEnabled` and the
two filling flags, then priority dispatch (CVV input, card-verification
input, place-order button), handling only the first match. -/
def observerTick (fuel : Nat) (g : Glob) (dom : Dom) (p : Option Profile)
    (enabled : Bool) (st : St) : St × List Eff :=
  if !enabled || st.isFillingCvvInput || st.isFillingCardInput then (st, [])
  else if dom.cvvPresent && dom.cvvVisible && !st.confirmButtonClicked then
    handleCVVConfirmation dom p st
  else if dom.cardPresent && dom.cardVisible && !st.verifyCardButtonClicked then
    handleCreditCardConfirmation dom p st
  else if dom.placeOrderPresent && dom.placeOrderVisible
      && !dom.placeOrderDisabled && !st.placeOrderButtonClicked then
    placeOrder fuel g dom p st
  else (st, [])

/-- Body of the safety-interval callback: the same gated priority dispatch
as the observer callback, duplicated in the source inside a try/catch. -/
def intervalTick (fuel : Nat) (g : Glob) (dom : Dom) (p : Option Profile)
    (enabled : Bool) (st : St) : St × List Eff :=
  if !enabled || st.isFillingCvvInput || st.isFillingCardInput then (st, [])
  else if dom.cvvPresent && dom.cvvVisible && !st.confirmButtonClicked then
    handleCVVConfirmation dom p st
  else if dom.cardPresent && dom.cardVisible && !st.verifyCardButtonClicked then
    handleCreditCardConfirmation dom p st
  else if dom.placeOrderPresent && dom.placeOrderVisible
      && !dom.placeOrderDisabled && !st.placeOrderButtonClicked then
    placeOrder fuel g dom p st
  else (st, [])

/-- One invocation of the named watcher channel. -/
def channelTick (c : Channel) (fuel : Nat) (g : Glob) (dom : Dom)
    (p : Option Profile) (enabled : Bool) (st : St) : St × List Eff :=
  match c with
  | Channel.observer => observerTick fuel g dom p enabled st
  | Channel.interval => intervalTick fuel g dom p enabled st

/-- Idempotency specification of the place-order click relative to its
guard flag, for one run `r` from state `st`: at most one click per run,
no click when the guard is already set, and a performed click leaves the
guard set. -/
def PoSpec (st : St) (r : St × List Eff) : Prop :=
  r.2.count Eff.clickPlaceOrder ≤ 1
  ∧ (st.placeOrderButtonClicked = true → r.2.count Eff.clickPlaceOrder = 0)
  ∧ (1 ≤ r.2.count Eff.clickPlaceOrder → r.1.placeOrderButtonClicked = true)

/-- Idempotency specification of the CVV-confirm click relative to its
guard flag `confirmButtonClicked`. -/
def CvvSpec (st : St) (r : St × List Eff) : Prop :=
  r.2.count Eff.clickCvvConfirm ≤ 1
  ∧ (st.confirmButtonClicked = true →
      r.2.count Eff.clickCvvConfirm = 0 ∧ r.1.confirmButtonClicked = true)
  ∧ (1 ≤ r.2.count Eff.clickCvvConfirm → r.1.confirmButtonClicked = true)

/-- Idempotency specification of the verify-card click relative to its
guard flag `verifyCardButtonClicked`. -/
def VerifySpec (st : St) (r : St × List Eff) : Prop :=
  r.2.count Eff.clickVerifyCard ≤ 1
  ∧ (st.verifyCardButtonClicked = true →
      r.2.count Eff.clickVerifyCard = 0 ∧ r.1.verifyCardButtonClicked = true)
  ∧ (1 ≤ r.2.count Eff.clickVerifyCard → r.1.verifyCardButtonClicked = true)

/-! ## Page classification and top-level dispatch -/

/-- A browser location: `href = origin ++ pathname ++ search`. -/
structure Url where
  origin : String
  pathname : String
  search : String
  deriving DecidableEq

/-- `window.location.href`. -/
def Url.href (u : Url) : String := u.origin ++ u.pathname ++ u.search

/-- Substring test (JS `String.prototype.includes`). -/
def substrB (needle hay : String) : Bool :=
  hay.data.tails.any (fun t => needle.data.isPrefixOf t)

/-- Page types assigned by `detectCurrentPage`. -/
inductive PageType
  | product
  | registry
  | checkout
  | cart
  | unknown
  deriving DecidableEq

/-- `detectCurrentPage`: ordered substring rules on the full href, with
the exact-pathname cart rule evaluated last. -/
def detectCurrentPage (u : Url) : PageType :=
  if substrB "target.com/p/" u.href then PageType.product
  else if substrB "/gift-registry" u.href then PageType.registry
  else if substrB "target.com/checkout" u.href then PageType.checkout
  else if u.pathname == "/cart" then PageType.cart
  else PageType.unknown

/-- Top-level operations, for the script-entry trace. -/
inductive TopEff
  | updateStatus
  /-- the cart branch reads the `globalSettings` key from storage -/
  | getGlobalSettings
  | closeTab
  /-- the engine loads site settings, global settings and the profile -/
  | loadSettingsAndProfile
  | setupListeners
  /-- `startCheckoutProcess` is invoked (product pipeline, incl. price check) -/
  | pipelineStart
  /-- `continueCheckoutProcess` is invoked -/
  | pipelineContinue
  /-- `setupCheckoutPageObservers` is invoked (watcher installation) -/
  | watcherInstall
  deriving DecidableEq

/-- Operations performed by `handlePageDetection` for a detected page
type (after `cleanup()`), at the granularity of the top-level trace. -/
def handlePageDetectionEffs (pt : PageType) (enabled : Bool) : List TopEff :=
  if pt == PageType.cart then [TopEff.updateStatus]
  else if enabled then
    match pt with
    | PageType.product =>
      [TopEff.updateStatus, TopEff.loadSettingsAndProfile, TopEff.pipelineStart]
    | PageType.checkout =>
      [TopEff.updateStatus, TopEff.watcherInstall,
        TopEff.loadSettingsAndProfile, TopEff.pipelineContinue]
    | _ => [TopEff.updateStatus]
  else [TopEff.updateStatus]

/-- Script entry: the top-level cart gate (exact pathname match, evaluated
before anything else), whose cart branch only reads `globalSettings` to
decide auto-close; the non-cart branch runs `init()`, which re-checks the
pathname, loads settings and profile, installs listeners and dispatches on
the classified page type. -/
def scriptEntry (u : Url) (autoCloseCartPage : Bool) (enabled : Bool) :
    List TopEff :=
  if u.pathname == "/cart" then
    [TopEff.updateStatus, TopEff.getGlobalSettings]
      ++ (if autoCloseCartPage then [TopEff.closeTab] else [TopEff.updateStatus])
  else
    if u.pathname == "/cart" then [TopEff.updateStatus]
    else
      [TopEff.loadSettingsAndProfile, TopEff.setupListeners]
        ++ handlePageDetectionEffs (detectCurrentPage u) enabled

/-! ## Buy-Now retry loop (`retryBuyNow` inside `useBuyNowCheckout`) -/

/-- Outcome of the retry loop: terminal failure, or a restart of the
Buy-Now sequence with the attempt counter reset. -/
inductive RetryOutcome
  | failed
  | restarted (newRetryCount : Nat)
  deriving DecidableEq

/-- The active polling loop for the Buy-Now trigger button: at most 10
poll attempts, returning the first index at which the button is found and
visible. -/
def pollForBuyNow (found : Nat → Bool) : Option Nat :=
  (List.range 10).find? found

/-- `retryBuyNow`: at entry, a retry count at or above `maxRetries = 5`
terminates with a failure status; otherwise the count is incremented, the
initial delay is awaited, the poll loop runs, and either the sequence is
restarted with the counter reset to 0, or the loop recurses with the delay
multiplied by 1.5 and capped at 5000 ms.  `found rc i` abstracts whether
the trigger button is found and visible at poll attempt `i` of retry
attempt `rc`; the returned list collects the awaited initial delays, one
per retry attempt made. -/
def retryBuyNow (found : Nat → Nat → Bool) (delayMs : ℚ)
    (retryCount : Nat) : RetryOutcome × List ℚ :=
  if retryCount ≥ 5 then (RetryOutcome.failed, [])
  else
    let rc := retryCount + 1
    match pollForBuyNow (found rc) with
    | some _ => (RetryOutcome.restarted 0, [delayMs])
    | none =>
      let r := retryBuyNow found (min (delayMs * (3 / 2)) 5000) rc
      (r.1, delayMs :: r.2)
termination_by 5 - retryCount
decreasing_by omega

/-- The schedule of initial delays over `n` consecutive failed retry
attempts starting from delay `d`: each step multiplies by 1.5 and caps at
5000. -/
def delaySchedule (d : ℚ) : Nat → List ℚ
  | 0 => []
  | n + 1 => d :: delaySchedule (min (d * (3 / 2)) 5000) n

/-! ## Product-page pipeline (`startCheckoutProcess`) and
checkout-page pipeline (`continueCheckoutProcess`) -/

/-- Environment of one pipeline attempt: which steps raise exceptions and
what the parallel checks observe. -/
structure PipelineEnv where
  isEnabled : Bool
  /-- the out-of-stock marker is visible (the stock-check promise rejects) -/
  outOfStock : Bool
  priceEnv : PriceEnv
  /-- `selectDeliveryMethod` (or its surrounding sleep) throws -/
  selectDeliveryThrows : Bool
  /-- `addToCart` throws -/
  addToCartThrows : Bool
  /-- `handlePopups` throws -/
  popupsThrow : Bool
  deriving DecidableEq

/-- `goDirectlyToCheckout`: skipped during Buy-Now error recovery or when
the Buy-Now side panel is present; otherwise navigates to the checkout
page. -/
def goDirectlyToCheckout (dom : Dom) (st : St) : St × List Eff :=
  let st0 : St := { st with currentStep := "go-to-checkout" }
  if st0.inBuyNowErrorRecovery then (st0, [Eff.stepGoToCheckout])
  else if dom.buyNowPanelPresent then (st0, [Eff.stepGoToCheckout])
  else
    (st0, [Eff.stepGoToCheckout, Eff.status "Navigating to checkout...",
      Eff.navigateToCheckout])

/-- `startCheckoutProcess`: a no-op when `checkoutInProgress` is already
true; otherwise sets the flag, verifies profile and enabled state, runs
the price and stock checks, then the step pipeline.  The non-critical
steps (select-delivery, handle-popups) catch their exceptions and
continue; add-to-cart rethrows into the inner catch, which calls
`handleCheckoutError` (clearing the flag).  The source deliberately has no
finally block: the path that completes `goDirectlyToCheckout` returns with
`checkoutInProgress` still true. -/
def startCheckoutProcess (env : PipelineEnv) (p : Option Profile)
    (dom : Dom) (st : St) : St × List Eff :=
  if st.checkoutInProgress then (st, [])
  else
    let st0 : St := { st with checkoutInProgress := true, currentStep := "start" }
    let e0 : List Eff := [Eff.status "Starting checkout..."]
    if p.isNone then
      ({ st0 with checkoutInProgress := false },
        e0 ++ [Eff.status "Error: No profile selected",
          Eff.status "Error: Cannot start checkout: No profile selected."])
    else if !env.isEnabled then
      ({ st0 with checkoutInProgress := false }, e0)
    else
      let st1 : St := { st0 with currentStep := "check-stock" }
      if env.outOfStock then
        ({ st1 with checkoutInProgress := false },
          e0 ++ [Eff.status "Error: Item is out of stock."])
      else if !checkProductPrice env.priceEnv then
        ({ st1 with checkoutInProgress := false }, e0)
      else
        let st2 : St := { st1 with currentStep := "select-delivery" }
        let eD : List Eff := [Eff.stepSelectDelivery]
          ++ (if env.selectDeliveryThrows
            then [Eff.warn "Error in select-delivery step"] else [])
        let st3 : St := { st2 with currentStep := "add-to-cart" }
        if env.addToCartThrows then
          ({ st3 with checkoutInProgress := false },
            e0 ++ eD ++ [Eff.stepAddToCart, Eff.checkoutError])
        else
          let st4 : St := { st3 with currentStep := "handle-popups" }
          let eP : List Eff := [Eff.stepHandlePopups]
            ++ (if env.popupsThrow then [Eff.warn "Error handling popups"] else [])
          let r := goDirectlyToCheckout dom st4
          (r.1, e0 ++ eD ++ [Eff.stepAddToCart] ++ eP ++ r.2)

/-- `fillShippingInfo` (profile already verified at the call sites): click
through when shipping is pre-filled, otherwise fill the form when it is
present; never touches the guard flags. -/
def fillShippingInfo (dom : Dom) (st : St) : St × List Eff :=
  let st0 : St := { st with currentStep := "fill-shipping" }
  let e0 : List Eff := [Eff.status "Checking shipping info..."]
  if dom.shippingContinueVisible then
    (st0, e0 ++ [Eff.clickShippingContinue])
  else
    let e1 := e0 ++ [Eff.status "Filling shipping info..."]
    if !dom.shippingFormPresent then (st0, e1)
    else
      let e2 := e1 ++ [Eff.fillShippingForm]
      if dom.shippingContinueVisible then
        (st0, e2 ++ [Eff.clickShippingContinue])
      else (st0, e2 ++ [Eff.warn "Shipping continue button not found"])

/-- `fillPaymentInfo` (profile already verified at the call sites): skips
when the profile has no payment method, the form is absent or the card
iframe is present; never touches the guard flags. -/
def fillPaymentInfo (dom : Dom) (prof : Profile) (st : St) : St × List Eff :=
  let st0 : St := { st with currentStep := "fill-payment" }
  let e0 : List Eff := [Eff.status "Filling payment info..."]
  if prof.paymentMethod.isNone then (st0, e0)
  else
    let e1 := e0 ++ (if dom.addPaymentVisible then [Eff.clickAddPayment] else [])
    if !dom.paymentFormPresent then (st0, e1)
    else if dom.cardFramePresent then (st0, e1)
    else (st0, e1 ++ [Eff.fillPaymentForm])

/-- Body of `continueCheckoutProcess`, with the re-invocation after the
loading-indicator wait abstracted as `recur`.  A no-op when
`checkoutInProgress` is true; throws to the caller when no profile is
resolved (before the flag is set); returns when disabled; otherwise sets
the flag, handles the loading indicator (clearing the flag and
re-invoking), dispatches on the first matching checkout step in priority
order, and clears the flag in the finally block on every exit. -/
def continueCheckoutBody (recur : St → St × List Eff) (fuel : Nat)
    (env : PipelineEnv) (g : Glob) (dom : Dom) (p : Option Profile)
    (st : St) : St × List Eff :=
  if st.checkoutInProgress then (st, [])
  else
    match p with
    | none => (st, [Eff.status "Error: No profile for checkout"])
    | some prof =>
      if !env.isEnabled then (st, [])
      else
        let st0 : St :=
          { st with checkoutInProgress := true, currentStep := "continue-checkout" }
        let e0 : List Eff := [Eff.status "Continuing checkout..."]
        let st1 : St := { st0 with currentStep := "wait-for-load" }
        if dom.loadingSpinnerVisible then
          let st2 : St := { st1 with checkoutInProgress := false }
          let r := recur st2
          ({ r.1 with checkoutInProgress := false }, e0 ++ r.2)
        else
          let stc : St := { st1 with currentStep := "check-cvv" }
          let disp :=
            if dom.cvvPresent then
              let a := handleCVVConfirmation dom p stc
              let b := placeOrder fuel g dom p a.1
              (b.1, a.2 ++ b.2)
            else
              let std : St := { stc with currentStep := "check-card-verify" }
              if dom.cardPresent then
                let a := handleCreditCardConfirmation dom p std
                let b := placeOrder fuel g dom p a.1
                (b.1, a.2 ++ b.2)
              else
                let ste : St := { std with currentStep := "check-place-order" }
                if dom.placeOrderPresent then placeOrder fuel g dom p ste
                else
                  let stf : St := { ste with currentStep := "check-payment-form" }
                  if dom.paymentFormPresent then
                    let a := fillPaymentInfo dom prof stf
                    let b := placeOrder fuel g dom p a.1
                    (b.1, a.2 ++ b.2)
                  else
                    let stg : St :=
                      { stf with currentStep := "check-shipping-form" }
                    if dom.shippingFormPresent then
                      let a := fillShippingInfo dom stg
                      let b := fillPaymentInfo dom prof a.1
                      let c := placeOrder fuel g dom p b.1
                      (c.1, a.2 ++ b.2 ++ c.2)
                    else
                      let sth : St := { stg with currentStep := "fallback-check" }
                      let a := fillPaymentInfo dom prof sth
                      let b := placeOrder fuel g dom p a.1
                      (b.1, a.2 ++ b.2)
          ({ disp.1 with checkoutInProgress := false }, e0 ++ disp.2)

/-- `continueCheckoutProcess`: the body above, with the loading-indicator
re-invocation bounded by `fuel`. -/
def continueCheckoutProcess : Nat → PipelineEnv → Glob → Dom →
    Option Profile → St → St × List Eff
  | 0, env, g, dom, p, st =>
    continueCheckoutBody (fun st2 => (st2, [])) 0 env g dom p st
  | Nat.succ n, env, g, dom, p, st =>
    continueCheckoutBody (continueCheckoutProcess n env g dom p)
      (Nat.succ n) env g dom p st

/-! ## Concrete instances used by counterexamples and witnesses -/

/-- A price-check environment whose config is disabled and in which
nothing throws (the price guard passes). -/
def passPriceEnv : PriceEnv :=
  { storageThrows := false, price_check_enabled := false,
    price_check_closeTabOnFail := false, price_check_items := [],
    tcinThrows := false, urlTcin := none, dataTcin := none,
    priceThrows := false, priceMain := none, priceFallback := none,
    priceStructured := none }

/-- Environment in which the price guard, had `extractTCIN` not raised,
would block: enabled config, configured ceiling 40 for TCIN 123, page
price 50 — but the body of `extractTCIN` raises an exception. -/
def tcinThrowEnv : PriceEnv :=
  { storageThrows := false, price_check_enabled := true,
    price_check_closeTabOnFail := false, price_check_items := [("123", 40)],
    tcinThrows := true, urlTcin := some "123", dataTcin := none,
    priceThrows := false, priceMain := some 50, priceFallback := none,
    priceStructured := none }

/-- Same as `tcinThrowEnv` but the exception is raised in the body of
`extractPrice` instead. -/
def priceThrowEnv : PriceEnv :=
  { storageThrows := false, price_check_enabled := true,
    price_check_closeTabOnFail := false, price_check_items := [("123", 40)],
    tcinThrows := false, urlTcin := some "123", dataTcin := none,
    priceThrows := true, priceMain := some 50, priceFallback := none,
    priceStructured := none }

/-- Enabled config with a configured ceiling of -1 for TCIN 123 and an
extracted page price of exactly 0 (a JS-falsy number). -/
def zeroPriceEnv : PriceEnv :=
  { storageThrows := false, price_check_enabled := true,
    price_check_closeTabOnFail := false, price_check_items := [("123", -1)],
    tcinThrows := false, urlTcin := some "123", dataTcin := none,
    priceThrows := false, priceMain := some 0, priceFallback := none,
    priceStructured := none }

/-- Profile whose card number lives only under the `payment` shape. -/
def profPaymentOnly : Profile :=
  { cvv := none, cardNumber := none, paymentMethod := none,
    payment := some { cvv := none, cardNumber := some "4000000000000002" } }

/-- Profile whose card number lives only under the `paymentMethod` shape. -/
def profPmCardOnly : Profile :=
  { cvv := none, cardNumber := none,
    paymentMethod := some { cvv := none, cardNumber := some "4111111111111111" },
    payment := none }

/-- Profile with a direct card number. -/
def profDirectCard : Profile :=
  { cvv := some "111", cardNumber := some "4242424242424242",
    paymentMethod := none, payment := none }

/-- Minimal profile with direct fields only. -/
def profMinimal : Profile :=
  { cvv := some "111", cardNumber := some "4111111111111111",
    paymentMethod := none, payment := none }

/-- DOM snapshot in which only the card-verification input (and its
verify button) is available. -/
def domCardReady : Dom :=
  { cvvPresent := false, cvvVisible := false, cvvConfirmUsable := false,
    cardPresent := true, cardVisible := true, verifyBtnUsable := true,
    placeOrderPresent := false, placeOrderVisible := false,
    placeOrderDisabled := false, saveAndContinueUsable := false,
    termsUnchecked := false, highDemand := false,
    loadingSpinnerVisible := false, paymentFormPresent := false,
    shippingFormPresent := false, shippingContinueVisible := false,
    addPaymentVisible := false, cardFramePresent := false,
    buyNowPanelPresent := false }

/-- DOM snapshot with nothing of interest on the page. -/
def domEmpty : Dom :=
  { cvvPresent := false, cvvVisible := false, cvvConfirmUsable := false,
    cardPresent := false, cardVisible := false, verifyBtnUsable := false,
    placeOrderPresent := false, placeOrderVisible := false,
    placeOrderDisabled := false, saveAndContinueUsable := false,
    termsUnchecked := false, highDemand := false,
    loadingSpinnerVisible := false, paymentFormPresent := false,
    shippingFormPresent := false, shippingContinueVisible := false,
    addPaymentVisible := false, cardFramePresent := false,
    buyNowPanelPresent := false }

/-- Initial module state at script injection: every flag false. -/
def stInit : St :=
  { checkoutInProgress := false, currentStep := "",
    placeOrderButtonClicked := false, confirmButtonClicked := false,
    verifyCardButtonClicked := false, isFillingCvvInput := false,
    isFillingCardInput := false, inBuyNowErrorRecovery := false,
    highDemandIntervalInstalled := false }

/-- Pipeline environment in which everything goes right. -/
def happyEnv : PipelineEnv :=
  { isEnabled := true, outOfStock := false, priceEnv := passPriceEnv,
    selectDeliveryThrows := false, addToCartThrows := false,
    popupsThrow := false }

/-- Pipeline environment with selectable step exceptions and everything
before the step pipeline going right. -/
def stepEnv (d a pp : Bool) : PipelineEnv :=
  { isEnabled := true, outOfStock := false, priceEnv := passPriceEnv,
    selectDeliveryThrows := d, addToCartThrows := a, popupsThrow := pp }

/-- A location whose pathname is exactly the cart path but whose query
string carries a URL containing the product-page marker. -/
def cartUrlWithProductQuery : Url :=
  { origin := "https://www.target.com", pathname := "/cart",
    search := "?fromUrl=target.com/p/widget-/A-93954435" }

/-- A plain cart-page location. -/
def plainCartUrl : Url :=
  { origin := "https://www.target.com", pathname := "/cart", search := "" }

/-! ## Verification of the claims -/

/-- C3 counterexample: with the price guard enabled, a ceiling of 40
configured for TCIN 123 and a page price of 50, an exception raised inside
`extractTCIN` (respectively inside `extractPrice`) makes `checkProductPrice`
return `true` (Pass), not `false` (Block): both extractors catch their own
exceptions and return `null`, which the guard treats as missing data. -/
theorem c3_counterexample :
    checkProductPrice tcinThrowEnv = true
    ∧ checkProductPrice priceThrowEnv = true := by
  decide

/-- C3 amended: only an exception that reaches the try/catch of
`checkProductPrice` itself (the storage read) fails closed; exceptions
raised inside `extractTCIN` or `extractPrice` are caught locally, yield
`null`, and the guard passes, exactly as it does for merely-missing TCIN
or price. -/
theorem c3_fail_closed_scope :
    (∀ e : PriceEnv, checkProductPrice { e with storageThrows := true } = false)
    ∧ (∀ e : PriceEnv,
        checkProductPrice { e with storageThrows := false, tcinThrows := true } = true)
    ∧ (∀ e : PriceEnv,
        checkProductPrice { e with storageThrows := false, priceThrows := true } = true)
    ∧ (∀ e : PriceEnv,
        checkProductPrice
          { e with
            storageThrows := false
            tcinThrows := false
            urlTcin := none
            dataTcin := none } = true)
    ∧ (∀ e : PriceEnv,
        checkProductPrice
          { e with
            storageThrows := false
            priceThrows := false
            priceMain := none
            priceFallback := none
            priceStructured := none } = true) := by
  refine ⟨fun e => ?_, fun e => ?_, fun e => ?_, fun e => ?_, fun e => ?_⟩
  · simp [checkProductPrice]
  · simp [checkProductPrice, extractTCIN]
  · simp only [checkProductPrice, extractTCIN, extractPrice]
    split
    · simp_all
    · split
      · rfl
      · split <;> simp
  · simp [checkProductPrice, extractTCIN]
  · simp only [checkProductPrice, extractTCIN, extractPrice]
    split
    · simp_all
    · split
      · rfl
      · split <;> simp

/-- C5 counterexample: with an extracted price of exactly 0 and a
configured ceiling of -1 for the extracted TCIN, the claimed table says
Block (0 is strictly greater than -1) while `checkProductPrice` passes,
because the JS guard `if (!price)` treats the number 0 as missing. -/
theorem c5_counterexample :
    checkProductPrice zeroPriceEnv = true
    ∧ priceGuardSpecTable (extractTCIN zeroPriceEnv) (extractPrice zeroPriceEnv)
        zeroPriceEnv.price_check_enabled zeroPriceEnv.price_check_items = false := by
  decide

/-- C5 amended: for non-exceptional inputs the decision of
`checkProductPrice` matches the claimed table once a falsy extracted value
is coalesced to absent: an empty-string TCIN and a price of exactly 0 are
treated as missing (Pass); otherwise disabled config passes, missing
TCIN/price passes, unconfigured TCIN passes, price above the ceiling
blocks, price at or below the ceiling passes. -/
theorem c5_price_guard_table :
    ∀ e : PriceEnv,
      checkProductPrice { e with storageThrows := false } =
        priceGuardSpecTable
          (blankToNone (extractTCIN { e with storageThrows := false }))
          (zeroToNone (extractPrice { e with storageThrows := false }))
          e.price_check_enabled e.price_check_items := by
  intro e
  simp only [checkProductPrice, priceGuardSpecTable, blankToNone, zeroToNone]
  by_cases hen : e.price_check_enabled
  · cases h1 : extractTCIN { e with storageThrows := false } with
    | none => simp [hen]
    | some t =>
      by_cases ht : t = ""
      · simp [hen, ht]
      · cases h2 : extractPrice { e with storageThrows := false } with
        | none => simp [hen, ht]
        | some v =>
          by_cases hv : v = 0
          · simp [hen, ht, hv]
          · cases h3 : lookupItem t e.price_check_items <;>
              simp [hen, ht, hv, h3]
  · simp [hen]

/-- C6: both CVV resolutions (the checkout-page handler and the Buy-Now
iframe flow) return the first truthy value in the fixed order direct
`profile.cvv`, then `profile.paymentMethod.cvv`, then
`profile.payment.cvv`; with all three present the direct field wins, and
each single shape resolves on its own. -/
theorem c6_cvv_resolution_order :
    (∀ p : Option Profile,
      resolveCvvCheckout p =
        firstTruthy [p.bind Profile.cvv,
          (p.bind Profile.paymentMethod).bind Pay.cvv,
          (p.bind Profile.payment).bind Pay.cvv])
    ∧ (∀ p : Option Profile, resolveCvvBuyNow p = resolveCvvCheckout p)
    ∧ resolveCvvCheckout (some (Profile.mk (some "111") none
        (some (Pay.mk (some "222") none)) (some (Pay.mk (some "333") none)))) = some "111"
    ∧ resolveCvvCheckout (some (Profile.mk none none
        (some (Pay.mk (some "222") none)) none)) = some "222"
    ∧ resolveCvvCheckout (some (Profile.mk none none
        none (some (Pay.mk (some "333") none)))) = some "333"
    ∧ resolveCvvCheckout (some (Profile.mk (some "111") none
        none none)) = some "111" := by
  refine ⟨fun p => rfl, fun p => rfl, by decide, by decide, by decide, by decide⟩

/-- C4 counterexample: a profile whose card number lives only under the
`payment` shape resolves to nothing in the code (while the claimed
three-shape order resolves it), and for a profile whose card number lives
only under `paymentMethod` the handler fills the card input with the
absent direct field (`profile.cardNumber`, i.e. `none`), not with the
resolved value. -/
theorem c4_counterexample :
    resolveCardNumber (some profPaymentOnly) = none
    ∧ cardNumberResolutionSpec (some profPaymentOnly) = some "4000000000000002"
    ∧ Eff.fillCard none ∈
        (handleCreditCardConfirmation domCardReady (some profPmCardOnly) stInit).2
    ∧ Eff.fillCard (some "4111111111111111") ∉
        (handleCreditCardConfirmation domCardReady (some profPmCardOnly) stInit).2 := by
  decide

/-- C4 amended: card-number resolution checks only the direct
`profile.cardNumber` and then `profile.paymentMethod.cardNumber` (first
truthy wins, no `profile.payment` fallback), and the value actually
filled into the card input is always the direct `profile.cardNumber`
field, regardless of how resolution succeeded. -/
theorem c4_card_two_shapes_and_direct_fill :
    (∀ p : Option Profile,
      resolveCardNumber p =
        firstTruthy [p.bind Profile.cardNumber,
          (p.bind Profile.paymentMethod).bind Pay.cardNumber])
    ∧ (∀ (dom : Dom) (p : Option Profile) (st : St) (v : Option String),
        Eff.fillCard v ∈ (handleCreditCardConfirmation dom p st).2 →
          v = p.bind Profile.cardNumber) := by
  constructor
  · intro p
    cases p with
    | none => rfl
    | some prof =>
      cases h : prof.paymentMethod <;>
        simp [resolveCardNumber, firstTruthy, h, truthy]
  · intro dom p st v h
    unfold handleCreditCardConfirmation at h
    repeat' split at h
    all_goals simp_all

/-- C4 witness: the amended fill property applied at a profile with a
direct card number and a ready card-verification form. -/
theorem c4_card_two_shapes_and_direct_fill_witness :
    (some "4242424242424242" : Option String) =
      (some profDirectCard : Option Profile).bind Profile.cardNumber :=
  c4_card_two_shapes_and_direct_fill.2 domCardReady (some profDirectCard) stInit
    (some "4242424242424242") (by decide)

/-- C7 counterexample: a location whose pathname is exactly the cart path
but whose query string contains the product-page marker is classified as
`product` by `detectCurrentPage`, because the substring rules on the full
href run before the exact-pathname cart rule. -/
theorem c7_counterexample :
    cartUrlWithProductQuery.pathname = "/cart"
    ∧ detectCurrentPage cartUrlWithProductQuery = PageType.product := by
  exact ⟨rfl, by decide⟩

/-- C7 amended: classification yields `cart` for an exact cart pathname
whose href carries none of the earlier substring markers; and for every
exact cart pathname — independent of classification — the top-level
script entry never starts a pipeline, never installs watchers and never
runs the engine settings-and-profile load (the cart branch does read the
global auto-close setting). -/
theorem c7_cart_short_circuit :
    (∀ u : Url, u.pathname = "/cart" →
      substrB "target.com/p/" u.href = false →
      substrB "/gift-registry" u.href = false →
      substrB "target.com/checkout" u.href = false →
      detectCurrentPage u = PageType.cart)
    ∧ (∀ (u : Url) (ac en : Bool), u.pathname = "/cart" →
        (TopEff.pipelineStart ∉ scriptEntry u ac en
          ∧ TopEff.pipelineContinue ∉ scriptEntry u ac en
          ∧ TopEff.watcherInstall ∉ scriptEntry u ac en
          ∧ TopEff.loadSettingsAndProfile ∉ scriptEntry u ac en
          ∧ TopEff.getGlobalSettings ∈ scriptEntry u ac en)) := by
  constructor
  · intro u hp h1 h2 h3
    simp [detectCurrentPage, h1, h2, h3, hp]
  · intro u ac en hp
    cases ac <;> simp [scriptEntry, hp]

/-- C7 witness: the amended classification and short-circuit properties
applied at a plain cart-page location. -/
theorem c7_cart_short_circuit_witness :
    detectCurrentPage plainCartUrl = PageType.cart
    ∧ TopEff.pipelineStart ∉ scriptEntry plainCartUrl true true :=
  ⟨c7_cart_short_circuit.1 plainCartUrl rfl (by decide) (by decide) (by decide),
    (c7_cart_short_circuit.2 plainCartUrl true true rfl).1⟩

/-- Helper: the poll loop finds nothing when the button never appears. -/
lemma pollForBuyNow_const_false : pollForBuyNow (fun _ => false) = none := by
  decide

/-- Helper: the delay list of the retry loop is bounded by the remaining
attempt budget. -/
lemma retryBuyNow_length_le (f : Nat → Nat → Bool) :
    ∀ (n rc : Nat) (d : ℚ), 5 - rc ≤ n →
      (retryBuyNow f d rc).2.length ≤ 5 - rc := by
  intro n
  induction n with
  | zero =>
    intro rc d h
    rw [retryBuyNow]
    have h5 : rc ≥ 5 := by omega
    simp [h5]
  | succ n ih =>
    intro rc d h
    rw [retryBuyNow]
    by_cases h5 : rc ≥ 5
    · simp [h5]
    · rw [if_neg h5]
      cases hp : pollForBuyNow (f (rc + 1)) with
      | none =>
        simp only [hp]
        have := ih (rc + 1) (min (d * (3 / 2)) 5000) (by omega)
        simp only [List.length_cons]
        omega
      | some i =>
        simp only [hp]
        simp only [List.length_cons, List.length_nil]
        omega

/-- C9: the Buy-Now retry loop is bounded: it never makes more than 5
retry attempts; when the trigger button is never found it terminates with
the failure outcome after exactly the 5-attempt backoff schedule (each
initial delay 1.5 times the previous one, capped at 5000 ms) and issues
no further attempts; each attempt polls at most 10 times; and when the
poll finds the button the loop restarts the Buy-Now sequence with the
attempt counter reset to 0. -/
theorem c9_retry_bounded_backoff :
    (∀ (f : Nat → Nat → Bool) (d : ℚ) (rc : Nat),
      (retryBuyNow f d rc).2.length ≤ 5)
    ∧ (∀ d : ℚ,
        retryBuyNow (fun _ _ => false) d 0 =
          (RetryOutcome.failed, delaySchedule d 5))
    ∧ (∀ (f : Nat → Bool) (i : Nat), pollForBuyNow f = some i → i < 10)
    ∧ (∀ (f : Nat → Nat → Bool) (d : ℚ) (rc : Nat), rc < 5 →
        (pollForBuyNow (f (rc + 1))).isSome = true →
        retryBuyNow f d rc = (RetryOutcome.restarted 0, [d])) := by
  refine ⟨?_, ?_, ?_, ?_⟩
  · intro f d rc
    exact le_trans (retryBuyNow_length_le f (5 - rc) rc d le_rfl) (Nat.sub_le 5 rc)
  · intro d
    simp [retryBuyNow, pollForBuyNow_const_false, delaySchedule]
  · intro f i h
    have hm : i ∈ List.range 10 := List.mem_of_find?_eq_some h
    exact List.mem_range.mp hm
  · intro f d rc h5 hsome
    rw [retryBuyNow]
    rw [if_neg (by omega)]
    cases hp : pollForBuyNow (f (rc + 1)) with
    | none => rw [hp] at hsome; simp at hsome
    | some i => simp [hp]

/-- C9 witness: the poll bound and the restart-with-reset applied at a
button that is found on the first poll attempt. -/
theorem c9_retry_bounded_backoff_witness :
    (0 : Nat) < 10
    ∧ retryBuyNow (fun _ _ => true) 2000 0 = (RetryOutcome.restarted 0, [2000]) :=
  ⟨c9_retry_bounded_backoff.2.2.1 (fun _ => true) 0 (by decide),
    c9_retry_bounded_backoff.2.2.2 (fun _ _ => true) 2000 0 (by omega) (by decide)⟩

/-- C10: with `globalSettings.autoSubmit` false, `placeOrder` performs
exactly one status update and returns: no element is clicked, no CVV or
card-verification handling is invoked (the effect trace is the single
status update), and no state field other than `currentStep` changes — in
particular the three guard flags are untouched. -/
theorem c10_autosubmit_kill_switch :
    ∀ (fuel : Nat) (rz ub : Bool) (dom : Dom) (p : Option Profile) (st : St),
      placeOrder fuel
          { autoSubmit := false, randomizeDelay := rz, useBuyNowWhenAvailable := ub }
          dom p st =
        ({ st with currentStep := "place-order" },
          [Eff.status "Order ready - Submit disabled"]) := by
  intro fuel rz ub dom p st
  cases fuel <;> simp [placeOrder, placeOrderBody]

/-- Helper: the CVV handler clicks its confirm button at most once, never
when the guard flag is set, sets the guard when it clicks, clicks nothing
else, and does not touch the other two guard flags. -/
lemma handleCVV_spec (dom : Dom) (p : Option Profile) (st : St) :
    CvvSpec st (handleCVVConfirmation dom p st)
    ∧ (handleCVVConfirmation dom p st).2.count Eff.clickPlaceOrder = 0
    ∧ (handleCVVConfirmation dom p st).2.count Eff.clickVerifyCard = 0
    ∧ (handleCVVConfirmation dom p st).1.placeOrderButtonClicked
        = st.placeOrderButtonClicked
    ∧ (handleCVVConfirmation dom p st).1.verifyCardButtonClicked
        = st.verifyCardButtonClicked := by
  unfold CvvSpec handleCVVConfirmation
  repeat' split
  all_goals simp_all [List.count_append, List.count_cons]

/-- Helper: mirrored properties of the card-verification handler. -/
lemma handleCard_spec (dom : Dom) (p : Option Profile) (st : St) :
    VerifySpec st (handleCreditCardConfirmation dom p st)
    ∧ (handleCreditCardConfirmation dom p st).2.count Eff.clickPlaceOrder = 0
    ∧ (handleCreditCardConfirmation dom p st).2.count Eff.clickCvvConfirm = 0
    ∧ (handleCreditCardConfirmation dom p st).1.placeOrderButtonClicked
        = st.placeOrderButtonClicked
    ∧ (handleCreditCardConfirmation dom p st).1.confirmButtonClicked
        = st.confirmButtonClicked := by
  unfold VerifySpec handleCreditCardConfirmation
  repeat' split
  all_goals simp_all [List.count_append, List.count_cons]

/-- Helper: the high-demand preamble does not touch the guard flags and
performs no clicks. -/
lemma placeOrderHighDemand_facts (dom : Dom) (st0 : St) :
    (placeOrderHighDemand dom st0).1.placeOrderButtonClicked
        = st0.placeOrderButtonClicked
    ∧ (placeOrderHighDemand dom st0).1.confirmButtonClicked
        = st0.confirmButtonClicked
    ∧ (placeOrderHighDemand dom st0).1.verifyCardButtonClicked
        = st0.verifyCardButtonClicked
    ∧ (placeOrderHighDemand dom st0).2.count Eff.clickPlaceOrder = 0
    ∧ (placeOrderHighDemand dom st0).2.count Eff.clickCvvConfirm = 0
    ∧ (placeOrderHighDemand dom st0).2.count Eff.clickVerifyCard = 0 := by
  unfold placeOrderHighDemand
  repeat' split
  all_goals simp_all [List.count_append, List.count_cons]

/-- Helper: the checks-and-click sequence satisfies the three
click-idempotency specifications whenever the effects accumulated before
it contain no clicks, for any re-invocation continuation (within one
synchronous turn the continuation is never reached: the post-click
branches are excluded by the pre-click DOM checks). -/
lemma placeOrderAfterChecks_spec (recur : St → St × List Eff) (dom : Dom)
    (p : Option Profile) (st1 : St) (e1 : List Eff)
    (h1 : e1.count Eff.clickPlaceOrder = 0)
    (h2 : e1.count Eff.clickCvvConfirm = 0)
    (h3 : e1.count Eff.clickVerifyCard = 0) :
    PoSpec st1 (placeOrderAfterChecks recur dom p st1 e1)
    ∧ CvvSpec st1 (placeOrderAfterChecks recur dom p st1 e1)
    ∧ VerifySpec st1 (placeOrderAfterChecks recur dom p st1 e1) := by
  unfold PoSpec CvvSpec VerifySpec placeOrderAfterChecks
  by_cases hcvv : dom.cvvPresent
  case pos =>
    rw [if_pos hcvv]
    obtain ⟨⟨c1, c2, c3⟩, d1, d2, d3, d4⟩ :=
      handleCVV_spec dom p { st1 with placeOrderButtonClicked := false }
    refine ⟨⟨?_, ?_, ?_⟩, ⟨?_, ?_, ?_⟩, ⟨?_, ?_, ?_⟩⟩
    · simp [List.count_append, h1, d1]
    · intro hg; simp [List.count_append, h1, d1]
    · intro hg; simp [List.count_append, h1, d1] at hg
    · simpa [List.count_append, h2] using c1
    · intro hg
      obtain ⟨z1, z2⟩ := c2 hg
      exact ⟨by simp [List.count_append, h2, z1], z2⟩
    · intro hg
      exact c3 (by simpa [List.count_append, h2] using hg)
    · simp [List.count_append, h3, d2]
    · intro hg
      exact ⟨by simp [List.count_append, h3, d2], by rw [d4]; exact hg⟩
    · intro hg; simp [List.count_append, h3, d2] at hg
  case neg =>
    by_cases hcard : dom.cardPresent
    case pos =>
      rw [if_neg (by simp [hcvv]), if_pos hcard]
      obtain ⟨⟨c1, c2, c3⟩, d1, d2, d3, d4⟩ :=
        handleCard_spec dom p { st1 with placeOrderButtonClicked := false }
      refine ⟨⟨?_, ?_, ?_⟩, ⟨?_, ?_, ?_⟩, ⟨?_, ?_, ?_⟩⟩
      · simp [List.count_append, h1, d1]
      · intro hg; simp [List.count_append, h1, d1]
      · intro hg; simp [List.count_append, h1, d1] at hg
      · simp [List.count_append, h2, d2]
      · intro hg
        exact ⟨by simp [List.count_append, h2, d2], by rw [d4]; exact hg⟩
      · intro hg; simp [List.count_append, h2, d2] at hg
      · simpa [List.count_append, h3] using c1
      · intro hg
        obtain ⟨z1, z2⟩ := c2 hg
        exact ⟨by simp [List.count_append, h3, z1], z2⟩
      · intro hg
        exact c3 (by simpa [List.count_append, h3] using hg)
    case neg =>
      simp only [hcvv, hcard]
      repeat' split
      all_goals simp_all [List.count_append, List.count_cons]

/-- Helper: the three click specifications only read the three guard
flags of the input state. -/
lemma specs_congr (st st' : St) (r : St × List Eff)
    (hpo : st'.placeOrderButtonClicked = st.placeOrderButtonClicked)
    (hc : st'.confirmButtonClicked = st.confirmButtonClicked)
    (hv : st'.verifyCardButtonClicked = st.verifyCardButtonClicked) :
    (PoSpec st' r → PoSpec st r)
    ∧ (CvvSpec st' r → CvvSpec st r)
    ∧ (VerifySpec st' r → VerifySpec st r) := by
  unfold PoSpec CvvSpec VerifySpec
  rw [hpo, hc, hv]
  exact ⟨id, id, id⟩

/-- Helper: `placeOrderBody` satisfies the three click-idempotency
specifications for any re-invocation continuation. -/
lemma placeOrderBody_spec (recur : St → St × List Eff) (g : Glob) (dom : Dom)
    (p : Option Profile) (st : St) :
    PoSpec st (placeOrderBody recur g dom p st)
    ∧ CvvSpec st (placeOrderBody recur g dom p st)
    ∧ VerifySpec st (placeOrderBody recur g dom p st) := by
  obtain ⟨f1, f2, f3, g1, g2, g3⟩ :=
    placeOrderHighDemand_facts dom { st with currentStep := "place-order" }
  unfold placeOrderBody
  by_cases hs : g.autoSubmit
  case neg => simp [hs, PoSpec, CvvSpec, VerifySpec]
  case pos =>
    simp only [hs, Bool.not_true, Bool.false_eq_true, if_false]
    obtain ⟨k1, k2, k3⟩ :=
      placeOrderAfterChecks_spec recur dom p
        (placeOrderHighDemand dom { st with currentStep := "place-order" }).1
        (placeOrderHighDemand dom { st with currentStep := "place-order" }).2
        g1 g2 g3
    obtain ⟨t1, t2, t3⟩ :=
      specs_congr st
        (placeOrderHighDemand dom { st with currentStep := "place-order" }).1
        (placeOrderAfterChecks recur dom p
          (placeOrderHighDemand dom { st with currentStep := "place-order" }).1
          (placeOrderHighDemand dom { st with currentStep := "place-order" }).2)
        (by simpa using f1) (by simpa using f2) (by simpa using f3)
    exact ⟨t1 k1, t2 k2, t3 k3⟩

/-- Helper: `placeOrder` satisfies the three click specifications for
every fuel. -/
lemma placeOrder_spec (fuel : Nat) (g : Glob) (dom : Dom) (p : Option Profile)
    (st : St) :
    PoSpec st (placeOrder fuel g dom p st)
    ∧ CvvSpec st (placeOrder fuel g dom p st)
    ∧ VerifySpec st (placeOrder fuel g dom p st) := by
  cases fuel with
  | zero => exact placeOrderBody_spec _ g dom p st
  | succ n => exact placeOrderBody_spec _ g dom p st

/-- Helper: one observer-channel invocation satisfies the three click
specifications and preserves a set place-order guard. -/
lemma observerTick_spec (fuel : Nat) (g : Glob) (dom : Dom)
    (p : Option Profile) (en : Bool) (st : St) :
    PoSpec st (observerTick fuel g dom p en st)
    ∧ CvvSpec st (observerTick fuel g dom p en st)
    ∧ VerifySpec st (observerTick fuel g dom p en st)
    ∧ (st.placeOrderButtonClicked = true →
        (observerTick fuel g dom p en st).1.placeOrderButtonClicked = true) := by
  unfold observerTick
  split
  case isTrue =>
    unfold PoSpec CvvSpec VerifySpec
    simp
  case isFalse =>
    split
    case isTrue h =>
      obtain ⟨⟨c1, c2, c3⟩, d1, d2, d3, d4⟩ := handleCVV_spec dom p st
      unfold PoSpec CvvSpec VerifySpec
      refine ⟨⟨by simp [d1], fun _ => d1, fun hg => by simp [d1] at hg⟩,
        ⟨c1, c2, c3⟩,
        ⟨by simp [d2], fun hg => ⟨d2, by rw [d4]; exact hg⟩,
          fun hg => by simp [d2] at hg⟩,
        fun hg => by rw [d3]; exact hg⟩
    case isFalse =>
      split
      case isTrue h =>
        obtain ⟨⟨c1, c2, c3⟩, d1, d2, d3, d4⟩ := handleCard_spec dom p st
        unfold PoSpec CvvSpec VerifySpec
        refine ⟨⟨by simp [d1], fun _ => d1, fun hg => by simp [d1] at hg⟩,
          ⟨by simp [d2], fun hg => ⟨d2, by rw [d4]; exact hg⟩,
            fun hg => by simp [d2] at hg⟩,
          ⟨c1, c2, c3⟩,
          fun hg => by rw [d3]; exact hg⟩
      case isFalse =>
        split
        case isTrue h =>
          obtain ⟨s1, s2, s3⟩ := placeOrder_spec fuel g dom p st
          exact ⟨s1, s2, s3, fun hg => by simp [hg] at h⟩
        case isFalse =>
          unfold PoSpec CvvSpec VerifySpec
          simp

/-- Helper: the safety-interval callback is the same dispatch as the
observer callback. -/
lemma intervalTick_eq_observerTick (fuel : Nat) (g : Glob) (dom : Dom)
    (p : Option Profile) (en : Bool) (st : St) :
    intervalTick fuel g dom p en st = observerTick fuel g dom p en st := rfl

/-- Helper: either watcher channel satisfies the click specifications. -/
lemma channelTick_spec (c : Channel) (fuel : Nat) (g : Glob) (dom : Dom)
    (p : Option Profile) (en : Bool) (st : St) :
    PoSpec st (channelTick c fuel g dom p en st)
    ∧ CvvSpec st (channelTick c fuel g dom p en st)
    ∧ VerifySpec st (channelTick c fuel g dom p en st)
    ∧ (st.placeOrderButtonClicked = true →
        (channelTick c fuel g dom p en st).1.placeOrderButtonClicked = true) := by
  cases c with
  | observer => exact observerTick_spec fuel g dom p en st
  | interval =>
    have he := intervalTick_eq_observerTick fuel g dom p en st
    unfold channelTick
    rw [he]
    exact observerTick_spec fuel g dom p en st

/-- C1: for every pair of watcher-channel invocations performed
back-to-back on the same DOM snapshot (no suspension point between the
guard check and the guard set exists in any handler, so one invocation is
atomic with respect to the other), each guarded critical click —
place-order, CVV confirm, verify-card — occurs at most once in the
combined effect trace: whichever invocation clicks first sets the guard
flag synchronously, and the other invocation observes it and returns
without clicking.  Moreover an invocation arriving while a handler is
mid-fill (one of the filling flags set, i.e. during the suspension of the
other channel) performs no effect at all. -/
theorem c1_back_to_back_clicks_once :
    ∀ (cA cB : Channel) (fuelA fuelB : Nat) (g : Glob) (dom : Dom)
      (p : Option Profile) (en : Bool) (st : St),
      (((channelTick cA fuelA g dom p en st).2
          ++ (channelTick cB fuelB g dom p en
              (channelTick cA fuelA g dom p en st).1).2).count
            Eff.clickPlaceOrder ≤ 1
        ∧ ((channelTick cA fuelA g dom p en st).2
            ++ (channelTick cB fuelB g dom p en
                (channelTick cA fuelA g dom p en st).1).2).count
              Eff.clickCvvConfirm ≤ 1
        ∧ ((channelTick cA fuelA g dom p en st).2
            ++ (channelTick cB fuelB g dom p en
                (channelTick cA fuelA g dom p en st).1).2).count
              Eff.clickVerifyCard ≤ 1)
      ∧ (channelTick cB fuelB g dom p en
          { st with isFillingCvvInput := true }).2 = []
      ∧ (channelTick cB fuelB g dom p en
          { st with isFillingCardInput := true }).2 = [] := by
  intro cA cB fuelA fuelB g dom p en st
  obtain ⟨⟨a1, a2, a3⟩, ⟨b1, b2, b3⟩, ⟨c1, c2, c3⟩, _⟩ :=
    channelTick_spec cA fuelA g dom p en st
  obtain ⟨⟨a4, a5, a6⟩, ⟨b4, b5, b6⟩, ⟨c4, c5, c6⟩, _⟩ :=
    channelTick_spec cB fuelB g dom p en (channelTick cA fuelA g dom p en st).1
  refine ⟨⟨?_, ?_, ?_⟩, ?_, ?_⟩
  · rw [List.count_append]
    rcases Nat.eq_zero_or_pos
        ((channelTick cA fuelA g dom p en st).2.count Eff.clickPlaceOrder)
      with hz | hpos
    · omega
    · have hflag := a3 hpos
      have hzero := a5 hflag
      omega
  · rw [List.count_append]
    rcases Nat.eq_zero_or_pos
        ((channelTick cA fuelA g dom p en st).2.count Eff.clickCvvConfirm)
      with hz | hpos
    · omega
    · have hflag := b3 hpos
      have hzero := (b5 hflag).1
      omega
  · rw [List.count_append]
    rcases Nat.eq_zero_or_pos
        ((channelTick cA fuelA g dom p en st).2.count Eff.clickVerifyCard)
      with hz | hpos
    · omega
    · have hflag := c3 hpos
      have hzero := (c5 hflag).1
      omega
  · cases cB <;> simp [channelTick, observerTick, intervalTick]
  · cases cB <;> simp [channelTick, observerTick, intervalTick]

/-- Helper: navigating to checkout never touches `checkoutInProgress`. -/
lemma goDirectlyToCheckout_flag (dom : Dom) (st : St) :
    (goDirectlyToCheckout dom st).1.checkoutInProgress = st.checkoutInProgress := by
  unfold goDirectlyToCheckout
  by_cases h1 : st.inBuyNowErrorRecovery <;>
    by_cases h2 : dom.buyNowPanelPresent <;> simp [h1, h2]

/-- Helper: navigating to checkout always records the go-to-checkout step. -/
lemma goDirectlyToCheckout_mem_go (dom : Dom) (st : St) :
    Eff.stepGoToCheckout ∈ (goDirectlyToCheckout dom st).2 := by
  unfold goDirectlyToCheckout
  by_cases h1 : st.inBuyNowErrorRecovery <;>
    by_cases h2 : dom.buyNowPanelPresent <;> simp [h1, h2]

/-- Helper: navigating to checkout never reports a run error. -/
lemma goDirectlyToCheckout_not_err (dom : Dom) (st : St) :
    Eff.checkoutError ∉ (goDirectlyToCheckout dom st).2 := by
  unfold goDirectlyToCheckout
  by_cases h1 : st.inBuyNowErrorRecovery <;>
    by_cases h2 : dom.buyNowPanelPresent <;> simp [h1, h2]

/-- Helper: navigating to checkout never records the popup step. -/
lemma goDirectlyToCheckout_not_popups (dom : Dom) (st : St) :
    Eff.stepHandlePopups ∉ (goDirectlyToCheckout dom st).2 := by
  unfold goDirectlyToCheckout
  by_cases h1 : st.inBuyNowErrorRecovery <;>
    by_cases h2 : dom.buyNowPanelPresent <;> simp [h1, h2]

/-- C2 counterexample: a fully successful product-page run (profile
present, enabled, in stock, price check passing, no step exception): the
pipeline completes through the navigation to checkout with
`checkoutInProgress` still `true` — the success exit does not clear the
flag (the source deliberately leaves it to the next page load's
`cleanup()`). -/
theorem c2_counterexample :
    (startCheckoutProcess happyEnv (some profMinimal) domEmpty stInit).1.checkoutInProgress
        = true
    ∧ Eff.navigateToCheckout
        ∈ (startCheckoutProcess happyEnv (some profMinimal) domEmpty stInit).2 := by
  decide

/-- C2 amended: `checkoutInProgress` is set at pipeline start and cleared
on every exit path of `continueCheckoutProcess` (its finally block) and on
every abort or error exit of `startCheckoutProcess` (missing profile,
disabled, out of stock, price-check block, add-to-cart exception) — but
the successful completion of the product-page pipeline leaves the flag set
(it is `true` after the run exactly when the run reached the
go-to-checkout step); a second start while the flag is set is a no-op. -/
theorem c2_progress_flag_clearing :
    (∀ (env : PipelineEnv) (p : Option Profile) (dom : Dom) (st : St),
      ((startCheckoutProcess env p dom
          { st with checkoutInProgress := false }).1.checkoutInProgress = true
        ↔ (p.isSome = true ∧ env.isEnabled = true ∧ env.outOfStock = false
            ∧ checkProductPrice env.priceEnv = true
            ∧ env.addToCartThrows = false)))
    ∧ (∀ (fuel : Nat) (env : PipelineEnv) (g : Glob) (dom : Dom)
        (p : Option Profile) (st : St),
        (continueCheckoutProcess fuel env g dom p
          { st with checkoutInProgress := false }).1.checkoutInProgress = false)
    ∧ (∀ (env : PipelineEnv) (p : Option Profile) (dom : Dom) (st : St),
        startCheckoutProcess env p dom { st with checkoutInProgress := true }
          = ({ st with checkoutInProgress := true }, [])) := by
  refine ⟨?_, ?_, ?_⟩
  · intro env p dom st
    unfold startCheckoutProcess
    cases p with
    | none => simp
    | some prof =>
      by_cases hen : env.isEnabled <;>
        by_cases hoos : env.outOfStock <;>
          by_cases hpc : checkProductPrice env.priceEnv <;>
            by_cases hatc : env.addToCartThrows <;>
              simp [hen, hoos, hpc, hatc, goDirectlyToCheckout_flag]
  · intro fuel env g dom p st
    cases fuel with
    | zero =>
      unfold continueCheckoutProcess continueCheckoutBody
      cases p with
      | none => simp
      | some prof =>
        by_cases hen : env.isEnabled
        · by_cases hld : dom.loadingSpinnerVisible <;> simp [hen, hld]
        · simp [hen]
    | succ n =>
      unfold continueCheckoutProcess continueCheckoutBody
      cases p with
      | none => simp
      | some prof =>
        by_cases hen : env.isEnabled
        · by_cases hld : dom.loadingSpinnerVisible <;> simp [hen, hld]
        · simp [hen]
  · intro env p dom st
    unfold startCheckoutProcess
    simp

/-- Helper: the pass-through price environment passes. -/
lemma passPriceEnv_passes : checkProductPrice passPriceEnv = true := by decide

/-- C8: in the product-page pipeline, with profile present, enabled state,
stock available and a passing price check: an exception in the
select-delivery step is caught (logged as a warning) and the pipeline
still attempts add-to-cart; an exception in handle-popups is caught and
the pipeline still reaches go-to-checkout without surfacing a run error;
an exception in add-to-cart aborts the pipeline — popup handling and
go-to-checkout never run — and is surfaced through the error handler. -/
theorem c8_step_error_policy :
    (∀ (a pp : Bool) (dom : Dom) (st : St),
      Eff.stepAddToCart ∈
        (startCheckoutProcess (stepEnv true a pp) (some profMinimal) dom
          { st with checkoutInProgress := false }).2
      ∧ Eff.warn "Error in select-delivery step" ∈
        (startCheckoutProcess (stepEnv true a pp) (some profMinimal) dom
          { st with checkoutInProgress := false }).2)
    ∧ (∀ (d : Bool) (dom : Dom) (st : St),
        Eff.stepGoToCheckout ∈
          (startCheckoutProcess (stepEnv d false true) (some profMinimal) dom
            { st with checkoutInProgress := false }).2
        ∧ Eff.checkoutError ∉
          (startCheckoutProcess (stepEnv d false true) (some profMinimal) dom
            { st with checkoutInProgress := false }).2)
    ∧ (∀ (d pp : Bool) (dom : Dom) (st : St),
        Eff.checkoutError ∈
          (startCheckoutProcess (stepEnv d true pp) (some profMinimal) dom
            { st with checkoutInProgress := false }).2
        ∧ Eff.stepHandlePopups ∉
          (startCheckoutProcess (stepEnv d true pp) (some profMinimal) dom
            { st with checkoutInProgress := false }).2
        ∧ Eff.stepGoToCheckout ∉
          (startCheckoutProcess (stepEnv d true pp) (some profMinimal) dom
            { st with checkoutInProgress := false }).2) := by
  refine ⟨?_, ?_, ?_⟩
  · intro a pp dom st
    unfold startCheckoutProcess
    cases a <;> cases pp <;>
      simp [stepEnv, passPriceEnv_passes, goDirectlyToCheckout_mem_go,
        goDirectlyToCheckout_not_err, goDirectlyToCheckout_not_popups]
  · intro d dom st
    unfold startCheckoutProcess
    cases d <;>
      simp [stepEnv, passPriceEnv_passes, goDirectlyToCheckout_mem_go,
        goDirectlyToCheckout_not_err, goDirectlyToCheckout_not_popups]
  · intro d pp dom st
    unfold startCheckoutProcess
    cases d <;> cases pp <;>
      simp [stepEnv, passPriceEnv_passes, goDirectlyToCheckout_mem_go,
        goDirectlyToCheckout_not_err, goDirectlyToCheckout_not_popups]

end TargetScript

